import Mathlib

/-!
Verification of the session-authentication core of vv-keep-notes.

The development shallowly embeds, from the JavaScript source:
  * `utils/auth.js` — JWT issuance and verification (`generateAccessToken`,
    `generateRefreshToken`, `verifyAccessToken`, `verifyRefreshToken`),
    cookie management (`setAuthCookies`, `clearAuthCookies`);
  * `models/User.js` — the per-user `refreshTokens` ledger
    (`[{ token, createdAt }]`);
  * `pages/api/auth/refresh` — the refresh-token rotation endpoint;
  * `pages/api/auth/login` / `register` — the ledger-appending issuance step
    of the success path;
  * `pages/api/auth/me` — introspection;
  * `pages/api/auth/logout`;
  * `context/AuthContext.jsx` — the client-side single-flight refresh
    coordinator (the axios response interceptor).

Time is modelled in whole seconds (JWT `iat`/`exp` granularity). The npm
`jsonwebtoken` library signs with HS256, which is deterministic: two calls to
`jwt.sign` with the same payload, secret and `iat` produce the identical token
string. A token string is therefore modelled as either the claim set it was
signed over (well-signed with `JWT_SECRET`) or an opaque blob (malformed or
wrongly signed); equality of signed tokens is equality of claim sets.
`jwt.verify` with default options checks only the signature and `exp`
(rejecting exactly when `clockTimestamp >= exp`, with zero clock tolerance).
-/

namespace KeepNotes

/-- A JWT claim set as produced by `utils/auth.js`. Access tokens carry
`{ userId, email, isAdmin, iat, exp }`; refresh tokens carry
`{ userId, iat, exp }` (hence `email`/`isAdmin` are optional here). -/
structure Claims where
  userId : Nat
  email : Option String
  isAdmin : Option Bool
  iat : Nat
  exp : Nat
deriving DecidableEq, Repr

/-- A token string. `signed c` is the (unique, by HS256 determinism) JWT whose
claim set is `c`, signed with the server's `JWT_SECRET`; `garbage b` is any
other string: malformed, unsigned, or signed with a different key. -/
inductive Token where
  | signed (c : Claims)
  | garbage (blob : Nat)
deriving DecidableEq, Repr

/-- `ACCESS_TOKEN_EXPIRY = '15m'` in seconds. -/
def accessExpirySecs : Nat := 15 * 60

/-- `REFRESH_TOKEN_EXPIRY = '7d'` in seconds. -/
def refreshExpirySecs : Nat := 7 * 24 * 60 * 60

/-- One entry of `User.refreshTokens`: `{ token: String, createdAt: Date }`. -/
structure LedgerEntry where
  token : Token
  createdAt : Nat
deriving DecidableEq, Repr

/-- The fields of a `User` document this core reads or writes. -/
structure UserDoc where
  userId : Nat
  name : String
  email : String
  isAdmin : Bool
  refreshTokens : List LedgerEntry
deriving DecidableEq, Repr

/-- `generateAccessToken(user)` at current time `now`:
`jwt.sign({ userId, email, isAdmin }, JWT_SECRET, { expiresIn: '15m' })`. -/
def generateAccessToken (u : UserDoc) (now : Nat) : Token :=
  .signed ⟨u.userId, some u.email, some u.isAdmin, now, now + accessExpirySecs⟩

/-- `generateRefreshToken(user)` at current time `now`:
`jwt.sign({ userId }, JWT_SECRET, { expiresIn: '7d' })`. -/
def generateRefreshToken (u : UserDoc) (now : Nat) : Token :=
  .signed ⟨u.userId, none, none, now, now + refreshExpirySecs⟩

/-- `jwt.verify(token, JWT_SECRET)` wrapped in try/catch returning `null` on
failure: yields the claims iff the signature checks out and the token is not
expired (`jsonwebtoken` rejects exactly when `clockTimestamp >= exp`). -/
def verifyToken (t : Token) (now : Nat) : Option Claims :=
  match t with
  | .signed c => if now < c.exp then some c else none
  | .garbage _ => none

/-- `verifyAccessToken` from `utils/auth.js` (identical body to
`verifyRefreshToken`: same secret, no audience check). -/
def verifyAccessToken (t : Token) (now : Nat) : Option Claims :=
  verifyToken t now

/-- `verifyRefreshToken` from `utils/auth.js`. -/
def verifyRefreshToken (t : Token) (now : Nat) : Option Claims :=
  verifyToken t now

/-- Effect of a handler on the two auth cookies (`setAuthCookies` sets both
carriers; `clearAuthCookies` replaces both with immediately-expired values). -/
inductive CookieEffect where
  | untouched
  | set (accessToken refreshToken : Token)
  | cleared
deriving DecidableEq, Repr

/-- `User.findById(id)`: the (unique in MongoDB) document with `_id = id`,
modelled as the first matching document of the store. -/
def findById (db : List UserDoc) (id : Nat) : Option UserDoc :=
  db.find? (fun u => decide (u.userId = id))

/-- `user.save()`: persist the mutated document back into the store,
replacing the document with the same `_id`. -/
def saveUser (db : List UserDoc) (u : UserDoc) : List UserDoc :=
  db.map (fun v => if v.userId = u.userId then u else v)

/-- JavaScript `Array.prototype.findIndex`: index of the first element
satisfying `p`, `none` standing for the source's `-1`. -/
def findIndexOpt (p : α → Bool) : List α → Option Nat
  | [] => none
  | a :: l => if p a then some 0 else (findIndexOpt p l).map (· + 1)

/-- Response of `POST /auth/refresh` (status, cookie effect, JSON body). -/
structure RefreshResponse where
  status : Nat
  cookies : CookieEffect
  ok : Bool
  token : Option Token
  error : Option String
deriving DecidableEq, Repr

/-- Body of the rotation endpoint from the point where the user document has
been loaded (`pages/api/auth/refresh`, lines 32–61): `findIndex` over the
ledger; on `-1`, empty the ledger, clear cookies, 403 reuse; otherwise
`splice` out the redeemed entry, generate a fresh pair, `push` the new refresh
entry, `shift` off the oldest entry if the length exceeds 10, and answer 200.
Returns the response together with the mutated document that `user.save()`
persists. -/
def refreshCompute (user : UserDoc) (refreshToken : Token) (now : Nat) :
    RefreshResponse × UserDoc :=
  match findIndexOpt (fun e => decide (e.token = refreshToken)) user.refreshTokens with
  | none =>
      (⟨403, .cleared, false, none, some "Refresh token reuse detected"⟩,
       { user with refreshTokens := [] })
  | some i =>
      let tokens1 := user.refreshTokens.eraseIdx i
      let newAccessToken := generateAccessToken user now
      let newRefreshToken := generateRefreshToken user now
      let tokens2 := tokens1 ++ [⟨newRefreshToken, now⟩]
      let tokens3 := if tokens2.length > 10 then tokens2.tail else tokens2
      (⟨200, .set newAccessToken newRefreshToken, true, some newAccessToken, none⟩,
       { user with refreshTokens := tokens3 })

/-- `POST /auth/refresh` (`pages/api/auth/refresh`), sequential execution:
read the `refresh_token` cookie, verify the signature, load the user, then
run the rotation body and persist. Returns the response and the updated
store. -/
def refreshHandler (db : List UserDoc) (refreshCookie : Option Token)
    (now : Nat) : RefreshResponse × List UserDoc :=
  match refreshCookie with
  | none => (⟨401, .untouched, false, none, some "No refresh token"⟩, db)
  | some refreshToken =>
    match verifyRefreshToken refreshToken now with
    | none => (⟨401, .cleared, false, none, some "Invalid refresh token"⟩, db)
    | some payload =>
      match findById db payload.userId with
      | none => (⟨401, .cleared, false, none, some "User not found"⟩, db)
      | some user =>
          let out := refreshCompute user refreshToken now
          (out.1, saveUser db out.2)

/-- The token-issuance step of the success path of `POST /auth/login`
(`pages/api/auth/login`, after the bcrypt check) and of `POST /auth/register`
(identical lines): generate a pair and `push` the refresh entry onto the
ledger with no size cap. Returns the updated document and the issued pair. -/
def loginIssue (u : UserDoc) (now : Nat) : UserDoc × Token × Token :=
  let accessToken := generateAccessToken u now
  let refreshToken := generateRefreshToken u now
  ({ u with refreshTokens := u.refreshTokens ++ [⟨refreshToken, now⟩] },
   accessToken, refreshToken)

/-- The credential carriers of an inbound request: a well-formed
`Authorization: Bearer <token>` header, the `access_token` cookie, and the
`refresh_token` cookie (each possibly absent). -/
structure ReqCarriers where
  authorizationBearer : Option Token
  accessCookie : Option Token
  refreshCookie : Option Token
deriving DecidableEq, Repr

/-- The identity summary returned by introspection: the user document with
`passwordHash` and `refreshTokens` deselected. -/
structure UserSummary where
  userId : Nat
  name : String
  email : String
  isAdmin : Bool
deriving DecidableEq, Repr

/-- Projection matching `.select('-passwordHash -refreshTokens')`. -/
def UserDoc.summary (u : UserDoc) : UserSummary :=
  ⟨u.userId, u.name, u.email, u.isAdmin⟩

/-- Response of `GET /auth/me`. -/
structure MeResponse where
  status : Nat
  user : Option UserSummary
  error : Option String
deriving DecidableEq, Repr

/-- `GET /auth/me` (`pages/api/auth/me`): reads the `access_token` cookie
only (it never consults the Authorization header and does not call
`getUserFromReq`), verifies it, loads the user, and returns the summary.
No store mutation. -/
def meHandler (db : List UserDoc) (req : ReqCarriers) (now : Nat) : MeResponse :=
  match req.accessCookie with
  | none => ⟨401, none, some "Not authenticated"⟩
  | some accessToken =>
    match verifyAccessToken accessToken now with
    | none => ⟨401, none, some "Invalid access token"⟩
    | some payload =>
      match findById db payload.userId with
      | none => ⟨401, none, some "User not found"⟩
      | some user => ⟨200, some user.summary, none⟩

/-- `getUserFromReq` (`utils/auth.js`): extraction order is the bearer-style
Authorization header first, else the `access_token` cookie; then
`verifyAccessToken` and `User.findById`, any failure yielding `null`. -/
def getUserFromReq (db : List UserDoc) (req : ReqCarriers) (now : Nat) :
    Option UserDoc :=
  let token := match req.authorizationBearer with
    | some t => some t
    | none => req.accessCookie
  match token with
  | none => none
  | some token =>
    match verifyAccessToken token now with
    | none => none
    | some data => findById db data.userId

/-- Response of `POST /auth/logout`. -/
structure LogoutResponse where
  status : Nat
  cookies : CookieEffect
  ok : Bool
deriving DecidableEq, Repr

/-- `User.findOne({ 'refreshTokens.token': refreshToken })`: the first
document whose ledger holds an entry with that token value. -/
def findUserWithToken (db : List UserDoc) (refreshToken : Token) : Option UserDoc :=
  db.find? (fun u => u.refreshTokens.any (fun e => decide (e.token = refreshToken)))

/-- `POST /auth/logout` (`pages/api/auth/logout`): if the `refresh_token`
cookie is present and some user's ledger holds it, filter every entry with
that token value out of that user's ledger and save; in all cases clear both
cookies and answer `{ ok: true }`. -/
def logoutHandler (db : List UserDoc) (req : ReqCarriers) :
    LogoutResponse × List UserDoc :=
  let db' := match req.refreshCookie with
    | none => db
    | some refreshToken =>
      match findUserWithToken db refreshToken with
      | none => db
      | some user =>
          saveUser db
            { user with refreshTokens :=
                user.refreshTokens.filter (fun e => !(decide (e.token = refreshToken))) }
  (⟨200, .cleared, true⟩, db')

/-- State of the client-side refresh coordinator (`context/AuthContext.jsx`):
the `isRefreshing` flag and `refreshSubscribers` queue captured by the axios
response interceptor's closure (the interceptor is installed by a one-shot
effect, so every interceptor invocation shares the one captured binding).
`inflightOrigin` is the request whose 401 triggered the in-flight refresh;
`refreshCalls` counts `POST /auth/refresh` calls issued by the interceptor;
`replays` records, in issue order, the requests re-issued via
`axios(originalRequest)`. -/
structure CoordState where
  isRefreshing : Bool
  refreshSubscribers : List Nat
  inflightOrigin : Option Nat
  refreshCalls : Nat
  replays : List Nat
deriving DecidableEq, Repr

/-- Coordinator state before any expiry event: idle, empty queue. -/
def CoordState.idle : CoordState := ⟨false, [], none, 0, []⟩

/-- Events processed by the interceptor on the single JavaScript event loop:
a protected request `r` (without `_retry`) receives a 401, or the in-flight
refresh call resolves (successfully or not). -/
inductive CoordEvent where
  | fail401 (r : Nat)
  | refreshOk
  | refreshErr
deriving DecidableEq, Repr

/-- One interceptor step (`context/AuthContext.jsx`, lines 150–192).
On a 401 while refreshing, `subscribeTokenRefresh` enqueues a continuation
and no refresh call is issued; on a 401 while idle, `isRefreshing` is set and
exactly one refresh call goes out. When the refresh resolves successfully,
`onRefreshed()` drains the queue in enqueue order (each continuation
re-issues its original request) and then the triggering request itself is
re-issued; on failure the queue is dropped without replay. -/
def coordStep (s : CoordState) (e : CoordEvent) : CoordState :=
  match e with
  | .fail401 r =>
    if s.isRefreshing then
      { s with refreshSubscribers := s.refreshSubscribers ++ [r] }
    else
      { s with isRefreshing := true, inflightOrigin := some r,
               refreshCalls := s.refreshCalls + 1 }
  | .refreshOk =>
    if s.isRefreshing then
      { s with isRefreshing := false,
               replays := s.replays ++ s.refreshSubscribers ++ s.inflightOrigin.toList,
               refreshSubscribers := [], inflightOrigin := none }
    else s
  | .refreshErr =>
    if s.isRefreshing then
      { s with isRefreshing := false, refreshSubscribers := [],
               inflightOrigin := none }
    else s

/-- Run the coordinator over a sequence of event-loop events. -/
def coordRun (s : CoordState) (es : List CoordEvent) : CoordState :=
  es.foldl coordStep s

/-- A stored user document together with its mongoose `__v` version key
(the schema uses the default `versionKey`). `document.save()` guards writes
that change array positions — `splice`/`push`/`shift` on `refreshTokens`
mark the whole array for a `$set` — with a `{ _id, __v: <loaded version> }`
filter and a `$inc` of `__v`. The sequential handlers never observe the
guard (each request re-reads immediately before its single save), so the
version matters only to concurrent schedules. -/
structure StoredDoc where
  doc : UserDoc
  version : Nat
deriving DecidableEq, Repr

/-- `User.findById` against the versioned store: the loaded snapshot carries
the document's current `__v`. -/
def findByIdV (db : List StoredDoc) (id : Nat) : Option StoredDoc :=
  db.find? (fun s => decide (s.doc.userId = id))

/-- `user.save()` of a mutated ledger: mongoose issues
`updateOne({ _id, __v: snapshotVersion }, { $set: { refreshTokens: ... }, $inc: { __v: 1 } })`.
When the stored document still carries the snapshot's version the write
lands and `__v` is bumped; otherwise the filter matches no document and
`save()` rejects with `VersionError` — nothing is written. -/
def saveGuarded (db : List StoredDoc) (snapshotVersion : Nat) (u : UserDoc) :
    Option (List StoredDoc) :=
  match findByIdV db u.userId with
  | none => none
  | some cur =>
      if cur.version = snapshotVersion then
        some (db.map (fun s => if s.doc.userId = u.userId then ⟨u, cur.version + 1⟩ else s))
      else
        none

/-- Outcome of one request in a concurrent schedule: either an HTTP response
was sent, or `save()` rejected with `VersionError` before `res.json` — the
error is uncaught in the handler, so the framework answers 500 and nothing
was written. -/
inductive RaceOutcome where
  | responded (r : RefreshResponse)
  | versionError500
deriving DecidableEq, Repr

/-- The read phase of one rotation request: everything before the handler's
first write (`verifyRefreshToken`, then the `findById` await), yielding the
loaded snapshot — document plus its `__v`. -/
def refreshRead (db : List StoredDoc) (t : Token) (now : Nat) : Option StoredDoc :=
  match verifyRefreshToken t now with
  | none => none
  | some payload => findByIdV db payload.userId

/-- One legal interleaving of two concurrent rotation requests presenting the
same cookie: both requests complete their `findById` read before either
performs its `user.save()` write (possible because read and write are
separate awaits in the handler), then the two version-guarded writes land in
request order. Returns both outcomes and the final store, or `none` when a
read phase already rejects. -/
def refreshRaceBothRead (db : List StoredDoc) (t : Token) (n1 n2 : Nat) :
    Option (RaceOutcome × RaceOutcome × List StoredDoc) :=
  match refreshRead db t n1, refreshRead db t n2 with
  | some s1, some s2 =>
      let r1 := refreshCompute s1.doc t n1
      let r2 := refreshCompute s2.doc t n2
      match saveGuarded db s1.version r1.2 with
      | some db1 =>
        match saveGuarded db1 s2.version r2.2 with
        | some db2 => some (.responded r1.1, .responded r2.1, db2)
        | none => some (.responded r1.1, .versionError500, db1)
      | none =>
        match saveGuarded db s2.version r2.2 with
        | some db1 => some (.versionError500, .responded r2.1, db1)
        | none => some (.versionError500, .versionError500, db)
  | _, _ => none

/-- The ledger produced by the append-then-cap step of the rotation body:
`push` the new entry, then `shift` off the front when the length exceeds 10. -/
def cappedAppend (l : List LedgerEntry) (x : LedgerEntry) : List LedgerEntry :=
  if (l ++ [x]).length > 10 then (l ++ [x]).tail else l ++ [x]

/-- The user document produced by the success branch of the rotation body when
the redeemed token was found at index `i`: the redeemed entry spliced out, the
new refresh entry pushed, the cap applied. -/
def rotatedDoc (user : UserDoc) (now : Nat) (i : Nat) : UserDoc :=
  { user with refreshTokens := cappedAppend (user.refreshTokens.eraseIdx i) (LedgerEntry.mk (generateRefreshToken user now) now) }

/-- Sample identity used to instantiate the theorems on concrete inputs. -/
def aliceDoc : UserDoc := ⟨1, "alice", "alice@example.com", false, []⟩

/-- Claim set of a refresh token issued to `aliceDoc` at second 100. -/
def aliceClaims : Claims := ⟨1, none, none, 100, 100 + refreshExpirySecs⟩

/-- The refresh token issued to `aliceDoc` at second 100
(`generateRefreshToken aliceDoc 100`). -/
def aliceTok : Token := .signed aliceClaims

/-- `aliceDoc` holding exactly that token in her ledger. -/
def aliceWithTok : UserDoc := { aliceDoc with refreshTokens := [⟨aliceTok, 100⟩] }

/-- A second identity with an unrelated ledger entry. -/
def bobDoc : UserDoc :=
  ⟨2, "bob", "bob@example.com", false,
   [⟨.signed ⟨2, none, none, 50, 50 + refreshExpirySecs⟩, 50⟩]⟩

/-- `aliceDoc` holding ten ledger entries, the last being `aliceTok`. -/
def aliceTenTokens : UserDoc :=
  { aliceDoc with refreshTokens :=
      (List.range 9).map (fun k => ⟨.signed ⟨1, none, none, k, k + refreshExpirySecs⟩, k⟩)
        ++ [⟨aliceTok, 100⟩] }

/-- `aliceDoc` holding twelve ledger entries, the last being `aliceTok`
(reachable through repeated logins, which never trim the ledger). -/
def aliceTwelveTokens : UserDoc :=
  { aliceDoc with refreshTokens :=
      (List.range 11).map (fun k => ⟨.signed ⟨1, none, none, k, k + refreshExpirySecs⟩, k⟩)
        ++ [⟨aliceTok, 100⟩] }

/-! Helper lemmas shared by the claim theorems. -/

theorem verifyRefreshToken_signed {c : Claims} {n : Nat} (h : n < c.exp) :
    verifyRefreshToken (.signed c) n = some c := by
  simp [verifyRefreshToken, verifyToken, h]

theorem verifyRefreshToken_signed_expired {c : Claims} {n : Nat} (h : c.exp ≤ n) :
    verifyRefreshToken (.signed c) n = none := by
  simp [verifyRefreshToken, verifyToken]
  omega

theorem findIndexOpt_eq_none_iff {α : Type _} {p : α → Bool} {l : List α} :
    findIndexOpt p l = none ↔ ∀ a ∈ l, p a = false := by
  induction l with
  | nil => simp [findIndexOpt]
  | cons a l ih =>
    by_cases h : p a <;> simp [findIndexOpt, h, Option.map_eq_none', ih]

theorem findIndexOpt_lt_length {α : Type _} {p : α → Bool} {l : List α} {i : Nat}
    (h : findIndexOpt p l = some i) : i < l.length := by
  induction l generalizing i with
  | nil => simp [findIndexOpt] at h
  | cons a l ih =>
    by_cases hp : p a
    · simp [findIndexOpt, hp] at h
      simp [← h]
    · simp [findIndexOpt, hp, Option.map_eq_some'] at h
      obtain ⟨j, hj, rfl⟩ := h
      have := ih hj
      simp
      omega

theorem count_token_eraseIdx {l : List LedgerEntry} {t : Token} {i : Nat}
    (h : findIndexOpt (fun e => decide (e.token = t)) l = some i) :
    ((l.eraseIdx i).map (fun e => e.token)).count t + 1
      = (l.map (fun e => e.token)).count t := by
  induction l generalizing i with
  | nil => simp [findIndexOpt] at h
  | cons a l ih =>
    by_cases hp : a.token = t
    · simp [findIndexOpt, hp] at h
      simp [← h, List.eraseIdx, List.count_cons, hp]
    · simp [findIndexOpt, hp, Option.map_eq_some'] at h
      obtain ⟨j, hj, rfl⟩ := h
      simp [List.eraseIdx, List.count_cons, hp, ← ih hj]

theorem findIndexOpt_some_of_count_pos {l : List LedgerEntry} {t : Token}
    (h : 0 < (l.map (fun e => e.token)).count t) :
    ∃ i, findIndexOpt (fun e => decide (e.token = t)) l = some i := by
  rcases hopt : findIndexOpt (fun e => decide (e.token = t)) l with _ | i
  · exfalso
    rw [findIndexOpt_eq_none_iff] at hopt
    have ht : t ∈ l.map (fun e => e.token) := List.count_pos_iff.mp h
    obtain ⟨e, he, het⟩ := List.mem_map.mp ht
    have := hopt e he
    simp [het] at this
  · exact ⟨i, hopt⟩

theorem findById_userId {db : List UserDoc} {id : Nat} {u : UserDoc}
    (h : findById db id = some u) : u.userId = id := by
  have := List.find?_some h
  simpa using this

theorem findById_mem {db : List UserDoc} {id : Nat} {u : UserDoc}
    (h : findById db id = some u) : u ∈ db :=
  List.mem_of_find?_eq_some h

theorem findById_saveUser_self {db : List UserDoc} {id : Nat} {u u' : UserDoc}
    (h : findById db id = some u) (hid : u'.userId = id) :
    findById (saveUser db u') id = some u' := by
  induction db with
  | nil => simp [findById] at h
  | cons v rest ih =>
    by_cases hv : v.userId = id
    · have hv' : v.userId = u'.userId := by rw [hv, hid]
      simp [findById, saveUser, hv', hid]
    · have hv' : ¬ v.userId = u'.userId := by rw [hid]; exact hv
      have h' : findById rest id = some u := by
        simpa [findById, List.find?_cons, hv] using h
      have := ih h'
      simpa [findById, saveUser, hv', hv, List.find?_cons] using this

theorem refreshCompute_userId (user : UserDoc) (t : Token) (now : Nat) :
    (refreshCompute user t now).2.userId = user.userId := by
  unfold refreshCompute
  split <;> rfl

theorem refreshCompute_reuse {user : UserDoc} {t : Token} {now : Nat}
    (h : ∀ e ∈ user.refreshTokens, e.token ≠ t) :
    refreshCompute user t now =
      (⟨403, .cleared, false, none, some "Refresh token reuse detected"⟩,
       { user with refreshTokens := [] }) := by
  have hn : findIndexOpt (fun e => decide (e.token = t)) user.refreshTokens = none := by
    rw [findIndexOpt_eq_none_iff]
    intro a ha
    simpa using h a ha
  simp [refreshCompute, hn]

theorem refreshCompute_rotate {user : UserDoc} {t : Token} {now : Nat} {i : Nat}
    (h : findIndexOpt (fun e => decide (e.token = t)) user.refreshTokens = some i) :
    refreshCompute user t now =
      (⟨200, .set (generateAccessToken user now) (generateRefreshToken user now), true,
        some (generateAccessToken user now), none⟩,
       rotatedDoc user now i) := by
  simp [refreshCompute, h, rotatedDoc, cappedAppend]

theorem refreshHandler_loaded {db : List UserDoc} {t : Token} {now : Nat}
    {payload : Claims} {user : UserDoc}
    (hv : verifyRefreshToken t now = some payload)
    (hf : findById db payload.userId = some user) :
    refreshHandler db (some t) now =
      ((refreshCompute user t now).1, saveUser db (refreshCompute user t now).2) := by
  simp [refreshHandler, hv, hf]

theorem mem_cappedAppend (l : List LedgerEntry) (x : LedgerEntry) :
    x ∈ cappedAppend l x := by
  cases l with
  | nil => simp [cappedAppend]
  | cons a l' => unfold cappedAppend; split <;> simp

theorem not_mem_token_cappedAppend {l : List LedgerEntry} {t : Token} {i : Nat}
    (hc : (l.map (fun e => e.token)).count t = 1)
    (hfind : findIndexOpt (fun e => decide (e.token = t)) l = some i)
    {x : LedgerEntry} (hx : x.token ≠ t) :
    ∀ e ∈ cappedAppend (l.eraseIdx i) x, e.token ≠ t := by
  have h0 : ((l.eraseIdx i).map (fun e => e.token)).count t = 0 := by
    have := count_token_eraseIdx hfind
    omega
  have hmem : ∀ e ∈ l.eraseIdx i ++ [x], e.token ≠ t := by
    intro e he
    rcases List.mem_append.mp he with h1 | h1
    · intro het
      have ht : t ∈ (l.eraseIdx i).map (fun e => e.token) :=
        List.mem_map.mpr ⟨e, h1, het⟩
      rw [← List.count_pos_iff] at ht
      omega
    · have : e = x := by simpa using h1
      rw [this]
      exact hx
  intro e he
  apply hmem
  unfold cappedAppend at he
  split at he
  · exact List.mem_of_mem_tail he
  · exact he

/-! Claim theorems. -/

/-- C6: every access credential issued at `issuedAt` is accepted by
verification at exactly the instants strictly before `issuedAt + 15min`
(up to and including `issuedAt + 15min − 1` second) and rejected at or after
`issuedAt + 15min`; expiry is exact, with no clock-skew tolerance. -/
theorem access_token_validity_window (u : UserDoc) (issuedAt now : Nat) :
    (verifyAccessToken (generateAccessToken u issuedAt) now).isSome
      ↔ now < issuedAt + accessExpirySecs := by
  simp only [verifyAccessToken, verifyToken, generateAccessToken]
  split <;> simp_all

/-- C5: a refresh request presenting a token whose signature does not verify
(malformed, unsigned garbage, or expired) is answered 401 with the transport
credentials cleared, and the store — hence every identity's ledger — is
exactly as it was before the request. -/
theorem refresh_invalid_signature_401_state_unchanged
    (db : List UserDoc) (t : Token) (now : Nat)
    (h : verifyRefreshToken t now = none) :
    refreshHandler db (some t) now =
      (⟨401, .cleared, false, none, some "Invalid refresh token"⟩, db) := by
  simp [refreshHandler, h]

/-- Witness for C5: a garbage token against a two-identity store. -/
theorem refresh_invalid_signature_401_state_unchanged_witness :
    verifyRefreshToken (.garbage 0) 123 = none ∧
    refreshHandler [aliceWithTok, bobDoc] (some (.garbage 0)) 123 =
      (⟨401, .cleared, false, none, some "Invalid refresh token"⟩,
       [aliceWithTok, bobDoc]) :=
  ⟨by decide,
   refresh_invalid_signature_401_state_unchanged [aliceWithTok, bobDoc]
     (.garbage 0) 123 (by decide)⟩

/-- C10: after every successful rotation (status 200) the newly issued
refresh token is present in the identity's ledger when the handler completes:
the overflow eviction step never evicts the entry that was just appended. -/
theorem rotation_new_token_in_ledger
    (db : List UserDoc) (t : Token) (now : Nat) (payload : Claims) (user : UserDoc)
    (hv : verifyRefreshToken t now = some payload)
    (hf : findById db payload.userId = some user)
    (hs : (refreshHandler db (some t) now).1.status = 200) :
    ∃ u', findById (refreshHandler db (some t) now).2 payload.userId = some u' ∧
      ∃ e ∈ u'.refreshTokens, e.token = generateRefreshToken user now := by
  rw [refreshHandler_loaded hv hf] at hs ⊢
  rcases hidx : findIndexOpt (fun e => decide (e.token = t)) user.refreshTokens with _ | i
  · have hr := @refreshCompute_reuse user t now ?hnone
    · rw [hr] at hs
      simp at hs
    · intro e he het
      rw [findIndexOpt_eq_none_iff] at hidx
      have := hidx e he
      simp [het] at this
  · rw [refreshCompute_rotate hidx]
    refine ⟨rotatedDoc user now i, ?_, ?_⟩
    · exact findById_saveUser_self hf (by simpa [rotatedDoc] using findById_userId hf)
    · exact ⟨LedgerEntry.mk (generateRefreshToken user now) now,
        mem_cappedAppend _ _, rfl⟩

/-- Witness for C10: rotating Alice's outstanding token at second 101. -/
theorem rotation_new_token_in_ledger_witness :
    ∃ u', findById (refreshHandler [aliceWithTok, bobDoc] (some aliceTok) 101).2
            aliceClaims.userId = some u' ∧
      ∃ e ∈ u'.refreshTokens, e.token = generateRefreshToken aliceWithTok 101 :=
  rotation_new_token_in_ledger [aliceWithTok, bobDoc] aliceTok 101 aliceClaims
    aliceWithTok (by decide) (by decide) (by decide)

/-- C3 counterexample: eleven successful logins from a fresh identity leave
eleven entries in the ledger. The append performed by login (and by
registration, which runs the identical lines) enforces no size cap, so the
ledger exceeds 10 entries, contrary to the claim. -/
theorem ledger_cap_violated_by_logins :
    ((List.range 11).foldl (fun u n => (loginIssue u n).1) aliceDoc).refreshTokens.length
      = 11 := by decide

/-- C3 amended: only the rotation endpoint enforces the 10-entry cap — login
and registration append unconditionally, so the ledger can exceed 10 entries
(see the counterexample). A successful rotation starting from a ledger of at
most 10 entries leaves at most 10 entries; and whenever the ledger after the
append would exceed 10 entries, the evicted entry is the oldest remaining one
(the front of the list). -/
theorem rotation_preserves_ledger_cap
    (user : UserDoc) (t : Token) (now : Nat)
    (hs : (refreshCompute user t now).1.status = 200) :
    (user.refreshTokens.length ≤ 10 →
       (refreshCompute user t now).2.refreshTokens.length ≤ 10) ∧
    (10 < user.refreshTokens.length →
       ∃ i evicted rest,
         findIndexOpt (fun e => decide (e.token = t)) user.refreshTokens = some i ∧
         user.refreshTokens.eraseIdx i = evicted :: rest ∧
         (refreshCompute user t now).2.refreshTokens =
           rest ++ [LedgerEntry.mk (generateRefreshToken user now) now]) := by
  rcases hidx : findIndexOpt (fun e => decide (e.token = t)) user.refreshTokens with _ | i
  · exfalso
    have hr := @refreshCompute_reuse user t now ?hnone
    · rw [hr] at hs
      simp at hs
    · intro e he het
      rw [findIndexOpt_eq_none_iff] at hidx
      have := hidx e he
      simp [het] at this
  · rw [refreshCompute_rotate hidx]
    have hlt := findIndexOpt_lt_length hidx
    have hlen : (user.refreshTokens.eraseIdx i).length
        = user.refreshTokens.length - 1 := by
      rw [List.length_eraseIdx]
      simp [hlt]
    constructor
    · intro h10
      simp only [rotatedDoc, cappedAppend]
      split <;> simp_all
      omega
    · intro h10
      rcases he : user.refreshTokens.eraseIdx i with _ | ⟨evicted, rest⟩
      · rw [he] at hlen
        simp at hlen
        omega
      · refine ⟨i, evicted, rest, hidx, he, ?_⟩
        have hr : rest.length + 1 = user.refreshTokens.length - 1 := by
          rw [← hlen, he]
          simp
        simp only [rotatedDoc, cappedAppend, he]
        have hc : ((evicted :: rest)
            ++ [LedgerEntry.mk (generateRefreshToken user now) now]).length > 10 := by
          simp
          omega
        rw [if_pos hc]
        rfl

/-- Witness for C3: rotating a ten-entry ledger stays within the cap. -/
theorem rotation_preserves_ledger_cap_witness :
    (refreshCompute aliceTenTokens aliceTok 200).1.status = 200 ∧
    (refreshCompute aliceTenTokens aliceTok 200).2.refreshTokens.length ≤ 10 :=
  ⟨by decide,
   (rotation_preserves_ledger_cap aliceTenTokens aliceTok 200 (by decide)).1 (by decide)⟩

/-- C7 counterexample: a `GET /auth/me` request whose only credential is a
valid bearer Authorization header is answered 401, even though the codec
accepts the token and `getUserFromReq` (unused by this endpoint) resolves the
identity from it — the endpoint reads the `access_token` cookie only. -/
theorem me_bearer_only_rejected :
    (verifyAccessToken (generateAccessToken aliceDoc 50) 60).isSome = true ∧
    getUserFromReq [aliceDoc] ⟨some (generateAccessToken aliceDoc 50), none, none⟩ 60
      = some aliceDoc ∧
    meHandler [aliceDoc] ⟨some (generateAccessToken aliceDoc 50), none, none⟩ 60
      = ⟨401, none, some "Not authenticated"⟩ := by
  decide

/-- C7 amended: `GET /auth/me` accepts the access credential only via the
cookie carrier. Its outcome does not depend on the Authorization header; a
request without the `access_token` cookie is answered 401 (even when a valid
bearer header is present), and a request whose cookie verifies and resolves
to a stored identity receives the identity summary. -/
theorem me_cookie_only_behavior (db : List UserDoc) (req : ReqCarriers) (now : Nat) :
    (∀ b, meHandler db { req with authorizationBearer := b } now
            = meHandler db req now) ∧
    (req.accessCookie = none →
       meHandler db req now = ⟨401, none, some "Not authenticated"⟩) ∧
    (∀ tok c user, req.accessCookie = some tok →
       verifyAccessToken tok now = some c →
       findById db c.userId = some user →
       meHandler db req now = ⟨200, some user.summary, none⟩) := by
  refine ⟨fun b => rfl, fun h => by simp [meHandler, h], ?_⟩
  intro tok c user h hv hf
  simp [meHandler, h, hv, hf]

/-- Witness for C7: no-cookie requests are rejected; a valid-cookie request
gets the identity summary. -/
theorem me_cookie_only_behavior_witness :
    meHandler [aliceDoc] ⟨none, none, none⟩ 60
      = ⟨401, none, some "Not authenticated"⟩ ∧
    meHandler [aliceDoc] ⟨none, some (generateAccessToken aliceDoc 50), none⟩ 60
      = ⟨200, some aliceDoc.summary, none⟩ :=
  ⟨(me_cookie_only_behavior [aliceDoc] ⟨none, none, none⟩ 60).2.1 rfl,
   (me_cookie_only_behavior [aliceDoc]
       ⟨none, some (generateAccessToken aliceDoc 50), none⟩ 60).2.2
     (generateAccessToken aliceDoc 50)
     ⟨1, some "alice@example.com", some false, 50, 50 + accessExpirySecs⟩
     aliceDoc rfl (by decide) (by decide)⟩

/-- Core rotation/replay lemma: for a refresh token `signed c` held exactly
once in its owner's ledger, a first redemption at an unexpired instant
rotates (200, new pair set), and a second redemption of the same literal
value at an unexpired instant is answered 403 and empties the owner's
ledger — provided the rotation issued a value different from the redeemed
one. -/
theorem rotate_then_replay_core
    (db : List UserDoc) (c : Claims) (user : UserDoc) (n2 n3 : Nat)
    (hf : findById db c.userId = some user)
    (hcount : (user.refreshTokens.map (fun e => e.token)).count (Token.signed c) = 1)
    (hv2 : n2 < c.exp) (hv3 : n3 < c.exp)
    (hne : generateRefreshToken user n2 ≠ Token.signed c) :
    (refreshHandler db (some (Token.signed c)) n2).1
        = ⟨200, .set (generateAccessToken user n2) (generateRefreshToken user n2),
           true, some (generateAccessToken user n2), none⟩ ∧
    (refreshHandler (refreshHandler db (some (Token.signed c)) n2).2
        (some (Token.signed c)) n3).1
        = ⟨403, .cleared, false, none, some "Refresh token reuse detected"⟩ ∧
    ∃ u'', findById (refreshHandler (refreshHandler db (some (Token.signed c)) n2).2
              (some (Token.signed c)) n3).2 c.userId = some u''
        ∧ u''.refreshTokens = [] := by
  have hv2' : verifyRefreshToken (Token.signed c) n2 = some c :=
    verifyRefreshToken_signed hv2
  have hv3' : verifyRefreshToken (Token.signed c) n3 = some c :=
    verifyRefreshToken_signed hv3
  obtain ⟨i, hidx⟩ := findIndexOpt_some_of_count_pos
    (t := Token.signed c) (l := user.refreshTokens) (by rw [hcount]; exact Nat.one_pos)
  have h1 := refreshHandler_loaded hv2' hf
  have hrc := @refreshCompute_rotate user (Token.signed c) n2 i hidx
  have huid : user.userId = c.userId := findById_userId hf
  have hdoc1 : findById (saveUser db (rotatedDoc user n2 i)) c.userId
      = some (rotatedDoc user n2 i) :=
    findById_saveUser_self hf (by simpa [rotatedDoc] using huid)
  have hnot : ∀ e ∈ (rotatedDoc user n2 i).refreshTokens, e.token ≠ Token.signed c := by
    simpa [rotatedDoc] using
      not_mem_token_cappedAppend hcount hidx
        (x := LedgerEntry.mk (generateRefreshToken user n2) n2) hne
  have h2 := refreshHandler_loaded hv3' hdoc1
  have hrc2 := @refreshCompute_reuse (rotatedDoc user n2 i) (Token.signed c) n3 hnot
  rw [h1, hrc]
  refine ⟨rfl, ?_, ?_⟩
  · rw [h2, hrc2]
  · rw [h2, hrc2]
    refine ⟨{ rotatedDoc user n2 i with refreshTokens := [] }, ?_, rfl⟩
    exact findById_saveUser_self hdoc1 (by simpa [rotatedDoc] using huid)

/-- C1 counterexample: the claim fails on two concrete runs. (i) Same-second
rotation: logging in at second 100 and redeeming the issued refresh token
at second 100 succeeds, but HS256 signing is deterministic and `iat` has
second granularity, so the rotation reissues the literally identical token —
a second redemption of the same literal value then also succeeds with 200
instead of the claimed 403. (ii) After a rotation at second 101, replaying
the old value once its signature has expired is answered 401 (signature
check fires first), not the claimed 403 reuse outcome. -/
theorem refresh_second_redemption_not_always_403 :
    ((refreshHandler [(loginIssue aliceDoc 100).1]
        (some (loginIssue aliceDoc 100).2.2) 100).1.status = 200 ∧
     (refreshHandler (refreshHandler [(loginIssue aliceDoc 100).1]
          (some (loginIssue aliceDoc 100).2.2) 100).2
        (some (loginIssue aliceDoc 100).2.2) 100).1.status = 200) ∧
    ((refreshHandler [(loginIssue aliceDoc 100).1]
        (some (loginIssue aliceDoc 100).2.2) 101).1.status = 200 ∧
     (refreshHandler (refreshHandler [(loginIssue aliceDoc 100).1]
          (some (loginIssue aliceDoc 100).2.2) 101).2
        (some (loginIssue aliceDoc 100).2.2) (100 + refreshExpirySecs)).1.status
       = 401) := by
  decide

/-- C1 amended: for a refresh token `signed c` present exactly once in its
owner's ledger, redemption succeeds once (200 with a rotated pair); a second
redemption of the same literal value is answered 403 and leaves the owner's
ledger empty — provided the second redemption happens while the token's
signature is still unexpired (an expired replay is answered 401 by the
signature check instead) and the rotation issued a token with a literal
value different from the redeemed one (the deterministic signer reissues the
identical value when the rotation falls within the issuance second; see the
counterexample). -/
theorem refresh_single_use_amended
    (db : List UserDoc) (c : Claims) (user : UserDoc) (n2 n3 : Nat)
    (hf : findById db c.userId = some user)
    (hcount : (user.refreshTokens.map (fun e => e.token)).count (Token.signed c) = 1)
    (hv2 : n2 < c.exp) (hv3 : n3 < c.exp)
    (hne : generateRefreshToken user n2 ≠ Token.signed c) :
    (refreshHandler db (some (Token.signed c)) n2).1.status = 200 ∧
    (refreshHandler (refreshHandler db (some (Token.signed c)) n2).2
        (some (Token.signed c)) n3).1.status = 403 ∧
    ∃ u'', findById (refreshHandler (refreshHandler db (some (Token.signed c)) n2).2
              (some (Token.signed c)) n3).2 c.userId = some u''
        ∧ u''.refreshTokens = [] := by
  obtain ⟨ha, hb, hc⟩ := rotate_then_replay_core db c user n2 n3 hf hcount hv2 hv3 hne
  exact ⟨by rw [ha], by rw [hb], hc⟩

/-- Witness for C1 (amended): Alice redeems at 101, the replay at 102 is
answered 403 with her ledger emptied. -/
theorem refresh_single_use_amended_witness :
    (refreshHandler [aliceWithTok, bobDoc] (some (Token.signed aliceClaims)) 101).1.status
      = 200 ∧
    (refreshHandler (refreshHandler [aliceWithTok, bobDoc]
        (some (Token.signed aliceClaims)) 101).2
      (some (Token.signed aliceClaims)) 102).1.status = 403 ∧
    ∃ u'', findById (refreshHandler (refreshHandler [aliceWithTok, bobDoc]
              (some (Token.signed aliceClaims)) 101).2
            (some (Token.signed aliceClaims)) 102).2 aliceClaims.userId = some u''
        ∧ u''.refreshTokens = [] :=
  refresh_single_use_amended [aliceWithTok, bobDoc] aliceClaims aliceWithTok 101 102
    (by decide) (by decide) (by decide) (by decide) (by decide)

/-- C9 counterexample: logging in at second 100 and rotating in the same
second returns 200, but the deterministic HS256 signer with second-granular
`iat` reissues the literally identical refresh token — the rotated refresh
value is NOT different from the presented one, and replaying the old value
afterwards succeeds with 200 instead of the claimed 403. -/
theorem login_same_second_refresh_reissues_same_token :
    (refreshHandler [(loginIssue aliceDoc 100).1]
        (some (loginIssue aliceDoc 100).2.2) 100).1.status = 200 ∧
    (refreshHandler [(loginIssue aliceDoc 100).1]
        (some (loginIssue aliceDoc 100).2.2) 100).1.cookies
      = .set (generateAccessToken aliceDoc 100) (loginIssue aliceDoc 100).2.2 ∧
    (refreshHandler (refreshHandler [(loginIssue aliceDoc 100).1]
          (some (loginIssue aliceDoc 100).2.2) 100).2
        (some (loginIssue aliceDoc 100).2.2) 100).1.status = 200 := by
  decide

/-- C9 amended: login at second `n1` followed by a rotation at a strictly
later second `n2` (while the issued token is unexpired) returns 200 with a
new access credential and a refresh value different from the presented one;
replaying the old value afterwards (while its signature is unexpired) is
answered 403 and leaves the identity's ledger empty. The strictly-later-
second proviso is forced by the deterministic signer (see the
counterexample: a same-second rotation reissues the identical value). -/
theorem login_refresh_rotation_amended
    (u0 : UserDoc) (n1 n2 n3 : Nat)
    (h0 : u0.refreshTokens = [])
    (h12 : n1 < n2)
    (hv2 : n2 < n1 + refreshExpirySecs)
    (hv3 : n3 < n1 + refreshExpirySecs) :
    (refreshHandler [(loginIssue u0 n1).1]
        (some (loginIssue u0 n1).2.2) n2).1.status = 200 ∧
    (refreshHandler [(loginIssue u0 n1).1]
        (some (loginIssue u0 n1).2.2) n2).1.token
      = some (generateAccessToken u0 n2) ∧
    (refreshHandler [(loginIssue u0 n1).1]
        (some (loginIssue u0 n1).2.2) n2).1.cookies
      = .set (generateAccessToken u0 n2) (generateRefreshToken u0 n2) ∧
    generateRefreshToken u0 n2 ≠ (loginIssue u0 n1).2.2 ∧
    (refreshHandler (refreshHandler [(loginIssue u0 n1).1]
          (some (loginIssue u0 n1).2.2) n2).2
        (some (loginIssue u0 n1).2.2) n3).1.status = 403 ∧
    ∃ u'', findById (refreshHandler (refreshHandler [(loginIssue u0 n1).1]
              (some (loginIssue u0 n1).2.2) n2).2
            (some (loginIssue u0 n1).2.2) n3).2 u0.userId = some u''
        ∧ u''.refreshTokens = [] := by
  have hts : (loginIssue u0 n1).2.2
      = Token.signed ⟨u0.userId, none, none, n1, n1 + refreshExpirySecs⟩ := rfl
  have hf : findById [(loginIssue u0 n1).1]
      (Claims.mk u0.userId none none n1 (n1 + refreshExpirySecs)).userId
      = some (loginIssue u0 n1).1 := by
    simp [findById, loginIssue, List.find?]
  have hcount : ((loginIssue u0 n1).1.refreshTokens.map (fun e => e.token)).count
      (Token.signed ⟨u0.userId, none, none, n1, n1 + refreshExpirySecs⟩) = 1 := by
    simp [loginIssue, h0, generateRefreshToken]
  have hne : generateRefreshToken (loginIssue u0 n1).1 n2
      ≠ Token.signed ⟨u0.userId, none, none, n1, n1 + refreshExpirySecs⟩ := by
    intro h
    simp [generateRefreshToken, loginIssue] at h
    omega
  obtain ⟨ha, hb, hc2⟩ := rotate_then_replay_core [(loginIssue u0 n1).1]
    ⟨u0.userId, none, none, n1, n1 + refreshExpirySecs⟩ (loginIssue u0 n1).1 n2 n3
    hf hcount (by simpa using hv2) (by simpa using hv3) hne
  rw [hts]
  refine ⟨by rw [ha], by rw [ha]; rfl, by rw [ha]; rfl, ?_, by rw [hb], hc2⟩
  exact hne

/-- Witness for C9 (amended): Alice logs in at 100, rotates at 101, replays
at 102. -/
theorem login_refresh_rotation_amended_witness :
    (refreshHandler [(loginIssue aliceDoc 100).1]
        (some (loginIssue aliceDoc 100).2.2) 101).1.status = 200 ∧
    (refreshHandler [(loginIssue aliceDoc 100).1]
        (some (loginIssue aliceDoc 100).2.2) 101).1.token
      = some (generateAccessToken aliceDoc 101) ∧
    (refreshHandler [(loginIssue aliceDoc 100).1]
        (some (loginIssue aliceDoc 100).2.2) 101).1.cookies
      = .set (generateAccessToken aliceDoc 101) (generateRefreshToken aliceDoc 101) ∧
    generateRefreshToken aliceDoc 101 ≠ (loginIssue aliceDoc 100).2.2 ∧
    (refreshHandler (refreshHandler [(loginIssue aliceDoc 100).1]
          (some (loginIssue aliceDoc 100).2.2) 101).2
        (some (loginIssue aliceDoc 100).2.2) 102).1.status = 403 ∧
    ∃ u'', findById (refreshHandler (refreshHandler [(loginIssue aliceDoc 100).1]
              (some (loginIssue aliceDoc 100).2.2) 101).2
            (some (loginIssue aliceDoc 100).2.2) 102).2 aliceDoc.userId = some u''
        ∧ u''.refreshTokens = [] :=
  login_refresh_rotation_amended aliceDoc 100 101 102
    (by decide) (by decide) (by decide) (by decide)

/-- C2 (the race-safety property; the code does not implement it): under the
interleaving in which both concurrent rotation requests for the same ledger
token complete their document reads before either write, the first writer is
answered 200 with a rotated pair, while the second `save()` hits mongoose's
`__v` version guard and rejects with an uncaught `VersionError`, surfaced as
500 with nothing written. So it is never the case that both succeed, but the
losing racer is NOT given the claimed 403 reuse-detected outcome, and the
ledger is not cleared (the winner's rotated ledger survives, non-empty).
Sequential (atomic) execution of the same two requests yields 200 then 403,
the behavior the claim demands. -/
theorem refresh_race_loser_version_error :
    refreshRaceBothRead [⟨aliceWithTok, 0⟩] aliceTok 101 102
      = some (.responded (refreshCompute aliceWithTok aliceTok 101).1,
              .versionError500,
              [⟨(refreshCompute aliceWithTok aliceTok 101).2, 1⟩]) ∧
    (refreshCompute aliceWithTok aliceTok 101).1.status = 200 ∧
    (refreshCompute aliceWithTok aliceTok 101).2.refreshTokens ≠ [] ∧
    (refreshHandler [aliceWithTok] (some aliceTok) 101).1.status = 200 ∧
    (refreshHandler (refreshHandler [aliceWithTok] (some aliceTok) 101).2
        (some aliceTok) 102).1.status = 403 := by
  decide

/-- C8: `POST /auth/logout` always clears both transport carriers and
answers `{ ok: true }`. When no refresh cookie is presented, or its value is
in no ledger, the store is untouched; when some identity's ledger holds the
value, exactly the first such identity's document changes, and it changes
only by dropping the entries carrying that value. -/
theorem logout_removes_token_clears_cookies
    (db : List UserDoc) (req : ReqCarriers)
    (hnodup : (db.map (fun u => u.userId)).Nodup) :
    (logoutHandler db req).1 = ⟨200, .cleared, true⟩ ∧
    (req.refreshCookie = none → (logoutHandler db req).2 = db) ∧
    ∀ t, req.refreshCookie = some t →
      (findUserWithToken db t = none → (logoutHandler db req).2 = db) ∧
      ∀ u, findUserWithToken db t = some u →
        (logoutHandler db req).2
          = db.map (fun v => if v = u then { u with refreshTokens := u.refreshTokens.filter (fun e => !(decide (e.token = t))) } else v) ∧
        ∀ e ∈ u.refreshTokens.filter (fun e => !(decide (e.token = t))),
          e.token ≠ t := by
  refine ⟨rfl, fun h => by simp [logoutHandler, h], ?_⟩
  intro t ht
  refine ⟨fun hnone => by simp [logoutHandler, ht, hnone], ?_⟩
  intro u hu
  have humem : u ∈ db := List.mem_of_find?_eq_some hu
  constructor
  · have hout : (logoutHandler db req).2
        = saveUser db { u with refreshTokens := u.refreshTokens.filter (fun e => !(decide (e.token = t))) } := by
      simp [logoutHandler, ht, hu]
    rw [hout]
    unfold saveUser
    apply List.map_congr_left
    intro v hv
    by_cases hvu : v = u
    · simp [hvu]
    · have hne : ¬ v.userId = u.userId := by
        intro hid
        exact hvu (List.inj_on_of_nodup_map hnodup hv humem hid)
      simp [hvu, hne]
  · intro e he het
    rw [List.mem_filter] at he
    rw [het] at he
    simp at he

/-- Witness for C8: logging out with Alice's token removes it from her
ledger and leaves Bob's untouched. -/
theorem logout_removes_token_clears_cookies_witness :
    (logoutHandler [aliceWithTok, bobDoc] ⟨none, none, some aliceTok⟩).1
      = ⟨200, .cleared, true⟩ ∧
    (logoutHandler [aliceWithTok, bobDoc] ⟨none, none, some aliceTok⟩).2
      = [aliceDoc, bobDoc] := by
  have h := logout_removes_token_clears_cookies [aliceWithTok, bobDoc]
    ⟨none, none, some aliceTok⟩ (by decide)
  refine ⟨h.1, ?_⟩
  rw [((h.2.2 aliceTok rfl).2 aliceWithTok (by decide)).1]
  decide

/-- Steps of the coordinator while a refresh is in flight: further 401s only
enqueue continuations; the flag, origin, call count and replay log are
untouched. -/
theorem coordRun_fail401s_inflight (rs : List Nat) (s : CoordState)
    (h : s.isRefreshing = true) :
    coordRun s (rs.map .fail401)
      = { s with refreshSubscribers := s.refreshSubscribers ++ rs } := by
  induction rs generalizing s with
  | nil => simp [coordRun]
  | cons r rs ih =>
    have hstep : coordStep s (.fail401 r)
        = { s with refreshSubscribers := s.refreshSubscribers ++ [r] } := by
      simp [coordStep, h]
    show coordRun (coordStep s (.fail401 r)) (rs.map .fail401) = _
    rw [hstep, ih { s with refreshSubscribers := s.refreshSubscribers ++ [r] } (by exact h)]
    simp

/-- C4: starting from an idle coordinator, an expiry event — one 401
arriving while no refresh is in flight, any number of further 401s while the
refresh is in flight, then the successful resolution of that refresh —
issues exactly one `POST /auth/refresh` call; no continuation is replayed
strictly before the in-flight refresh resolves; and on resolution the queued
continuations are replayed in enqueue order, followed by the replay of the
request that triggered the refresh. -/
theorem coordinator_single_flight_replay_order
    (s0 : CoordState) (r0 : Nat) (rs : List Nat)
    (hidle : s0.isRefreshing = false) (hq : s0.refreshSubscribers = []) :
    (coordRun s0 (.fail401 r0 :: (rs.map .fail401 ++ [.refreshOk]))).refreshCalls
        = s0.refreshCalls + 1 ∧
    (coordRun s0 (.fail401 r0 :: (rs.map .fail401 ++ [.refreshOk]))).replays
        = s0.replays ++ rs ++ [r0] ∧
    (coordRun s0 (.fail401 r0 :: (rs.map .fail401 ++ [.refreshOk]))).isRefreshing
        = false ∧
    (coordRun s0 (.fail401 r0 :: (rs.map .fail401 ++ [.refreshOk]))).refreshSubscribers
        = [] ∧
    ∀ k, k ≤ rs.length + 1 →
      (coordRun s0 ((CoordEvent.fail401 r0 :: (rs.map .fail401 ++ [.refreshOk])).take k)).replays
        = s0.replays := by
  have hstep1 : coordStep s0 (.fail401 r0)
      = { s0 with isRefreshing := true, inflightOrigin := some r0,
                  refreshCalls := s0.refreshCalls + 1 } := by
    simp [coordStep, hidle]
  have hrun : coordRun s0 (.fail401 r0 :: (rs.map .fail401 ++ [.refreshOk]))
      = coordStep (coordRun (coordStep s0 (.fail401 r0)) (rs.map .fail401))
          .refreshOk := by
    simp [coordRun, List.foldl_append]
  have htail : ∀ j, j ≤ rs.length →
      (CoordEvent.fail401 r0 :: (rs.map .fail401 ++ [.refreshOk])).take (j+1)
        = CoordEvent.fail401 r0 :: (rs.take j).map .fail401 := by
    intro j hj
    rw [List.take_succ_cons, List.take_append_of_le_length (by simpa using hj),
      ← List.map_take]
  refine ⟨?_, ?_, ?_, ?_, ?_⟩
  · rw [hrun, hstep1, coordRun_fail401s_inflight _ _ rfl]
    simp [coordStep]
  · rw [hrun, hstep1, coordRun_fail401s_inflight _ _ rfl]
    simp [coordStep, hq]
  · rw [hrun, hstep1, coordRun_fail401s_inflight _ _ rfl]
    simp [coordStep]
  · rw [hrun, hstep1, coordRun_fail401s_inflight _ _ rfl]
    simp [coordStep]
  · intro k hk
    match k, hk with
    | 0, _ => rfl
    | (j+1), hk =>
      rw [htail j (by omega)]
      show (coordRun (coordStep s0 (.fail401 r0)) ((rs.take j).map .fail401)).replays
          = s0.replays
      rw [hstep1, coordRun_fail401s_inflight _ _ rfl]

/-- Witness for C4: three simultaneous 401s produce one refresh call and the
two queued continuations replay in enqueue order before the trigger's own
replay. -/
theorem coordinator_single_flight_replay_order_witness :
    (coordRun .idle [.fail401 1, .fail401 2, .fail401 3, .refreshOk]).refreshCalls = 1 ∧
    (coordRun .idle [.fail401 1, .fail401 2, .fail401 3, .refreshOk]).replays
      = [2, 3, 1] := by
  have h := coordinator_single_flight_replay_order .idle 1 [2, 3] rfl rfl
  exact ⟨h.1, h.2.1⟩

end KeepNotes
